import Mathlib

/-!
Shallow embedding of `src/analytics.js` (class `TGTrafficAnalytics`).

Numbers are modelled as rationals.  JavaScript `Math.round` rounds half
toward positive infinity, i.e. `Math.round x = ⌊x + 1/2⌋`.  The only
irrational primitive used by the source, `Math.log10`, is abstracted as an
explicit function parameter `log10 : ℚ → ℚ`; theorems that depend on a
concrete logarithm value instantiate it with a function that is exact at
the inputs used.  A JavaScript `||` fallback tests truthiness (a number is
falsy exactly when it is 0 or NaN; NaN does not arise on the rational
fragment modelled here), captured by `jsOrQ` / `jsOrS` / `jsOrB` below.
Possibly-absent object fields are `Option`s.  Runtime `TypeError`s
(property access on `null` / `undefined`) are modelled with `Except`.
-/

/-- JavaScript `Math.round`: round half toward positive infinity. -/
def jsRound (x : ℚ) : ℤ := ⌊x + 1/2⌋

/-- Source `Math.round(x * 100) / 100`: rounding to two decimal places. -/
def round2 (x : ℚ) : ℚ := (jsRound (x * 100) : ℚ) / 100

/-- Source `Math.round(x * 10) / 10`: rounding to one decimal place. -/
def round1 (x : ℚ) : ℚ := (jsRound (x * 10) : ℚ) / 10

/-- Numeric JS fallback `a || d`: value of `a` when present and truthy
(nonzero), else `d`. -/
def jsOrQ (x : Option ℚ) (d : ℚ) : ℚ :=
  match x with
  | none => d
  | some v => if v = 0 then d else v

/-- String JS fallback `a || d`: value of `a` when present and nonempty,
else `d`. -/
def jsOrS (x : Option String) (d : String) : String :=
  match x with
  | none => d
  | some s => if s = "" then d else s

/-- Boolean JS fallback `a || false`. -/
def jsOrB (x : Option Bool) : Bool := x.getD false

/-- Raw channel record as consumed by `calculateChannelMetrics` /
`analyzeChannel` (`channelData`). -/
structure ChannelSnapshot where
  username : Option String
  title : Option String
  description : Option String
  participants_count : Option ℚ
  avg_post_reach : Option ℚ
  ci_index : Option ℚ
  err_percent : Option ℚ
  category : Option String
  verified : Option Bool
  language : Option String

/-- Raw period statistics record (`statsData`). -/
structure PeriodStats where
  period : Option ℚ
  posts_count : Option ℚ
  views_per_post : Option ℚ
  forwards_per_post : Option ℚ
  mentions_per_post : Option ℚ
  avg_post_reach : Option ℚ
  ci_index : Option ℚ

/-- Normalized metrics bundle returned by `calculateChannelMetrics`. -/
structure MetricsBundle where
  subscribers : ℚ
  avgReach : ℚ
  reachPercentage : ℚ
  engagementRate : ℚ
  ciIndex : ℚ
  errPercent : ℚ
  postsPerDay : ℚ
  viewsPerPost : ℚ
  forwardsPerPost : ℚ
  mentionsPerPost : ℚ
  category : String
  verified : Bool
  language : String

/-- The `this.categoryMultipliers` lookup object (constructor, lines 16-24). -/
def categoryMultiplierTable : String → Option ℚ
  | "news" => some (12/10)
  | "tech" => some (13/10)
  | "lifestyle" => some 1
  | "entertainment" => some (9/10)
  | "business" => some (14/10)
  | "education" => some (11/10)
  | "unknown" => some 1
  | _ => none

/-- Lookup `this.categoryMultipliers[category] || 1.0`. -/
def categoryMultiplier (category : String) : ℚ :=
  jsOrQ (categoryMultiplierTable category) 1

/-- Source `calculateChannelMetrics(channelData, statsData)`, lines 69-104.
`statsData?.f` is `statsData.bind f`; each `|| fallback` is a `jsOr`. -/
def calculateChannelMetrics (channelData : ChannelSnapshot)
    (statsData : Option PeriodStats) : MetricsBundle :=
  let subscribers := jsOrQ channelData.participants_count 0
  let avgReach :=
    jsOrQ channelData.avg_post_reach (jsOrQ (statsData.bind (·.avg_post_reach)) 0)
  let ciIndex :=
    jsOrQ channelData.ci_index (jsOrQ (statsData.bind (·.ci_index)) 0)
  let errPercent := jsOrQ channelData.err_percent 0
  let reachPercentage := if 0 < subscribers then avgReach / subscribers * 100 else 0
  let engagementRate := if 0 < ciIndex then ciIndex else reachPercentage * (8/10)
  -- `statsData?.posts_count ? statsData.posts_count / (statsData.period || 7) : 1`:
  -- the guard is the truthiness of `posts_count` itself, so a present value 0
  -- takes the `: 1` branch exactly like an absent one.
  let postsPerDay :=
    match statsData with
    | none => (1 : ℚ)
    | some s =>
      match s.posts_count with
      | none => 1
      | some p => if p = 0 then 1 else p / jsOrQ s.period 7
  let viewsPerPost := jsOrQ (statsData.bind (·.views_per_post)) avgReach
  let forwardsPerPost := jsOrQ (statsData.bind (·.forwards_per_post)) 0
  let mentionsPerPost := jsOrQ (statsData.bind (·.mentions_per_post)) 0
  { subscribers := subscribers
    avgReach := avgReach
    reachPercentage := round2 reachPercentage
    engagementRate := round2 engagementRate
    ciIndex := round2 ciIndex
    errPercent := round2 errPercent
    postsPerDay := round1 postsPerDay
    viewsPerPost := viewsPerPost
    forwardsPerPost := forwardsPerPost
    mentionsPerPost := mentionsPerPost
    category := jsOrS channelData.category "unknown"
    verified := jsOrB channelData.verified
    language := jsOrS channelData.language "unknown" }

/-- The `qualityScore.breakdown` record. -/
structure ScoreBreakdown where
  subscribers : ℚ
  reach : ℚ
  engagement : ℚ
  ci : ℚ

/-- The `qualityScore.modifiers` record. -/
structure ScoreModifiers where
  category : ℚ
  verified : ℚ
  err : ℚ

/-- Result of `calculateQualityScore`. -/
structure QualityScore where
  overall : ℚ
  breakdown : ScoreBreakdown
  modifiers : ScoreModifiers

/-- Source `calculateQualityScore(metrics)`, lines 109-175.  The running
`score` / `weights` accumulators are unrolled into one `let` per guarded
update; `log10` stands for `Math.log10`. -/
def calculateQualityScore (log10 : ℚ → ℚ) (metrics : MetricsBundle) : QualityScore :=
  let score1 : ℚ :=
    if 0 < metrics.subscribers then
      min 25 (log10 metrics.subscribers * 5) * (25/100) else 0
  let weights1 : ℚ := if 0 < metrics.subscribers then 25/100 else 0
  let score2 : ℚ :=
    if 0 < metrics.reachPercentage then
      score1 + min 30 (metrics.reachPercentage * 2) * (30/100) else score1
  let weights2 : ℚ :=
    if 0 < metrics.reachPercentage then weights1 + 30/100 else weights1
  let score3 : ℚ :=
    if 0 < metrics.engagementRate then
      score2 + min 25 (metrics.engagementRate * 5) * (25/100) else score2
  let weights3 : ℚ :=
    if 0 < metrics.engagementRate then weights2 + 25/100 else weights2
  let score4 : ℚ :=
    if 0 < metrics.ciIndex then
      score3 + min 20 (metrics.ciIndex * 20) * (20/100) else score3
  let weights4 : ℚ := if 0 < metrics.ciIndex then weights3 + 20/100 else weights3
  let catMult := categoryMultiplier metrics.category
  let score5 := score4 * catMult
  let score6 := if metrics.verified then score5 * (11/10) else score5
  -- line 155: `score *= (1 - (metrics.errPercent / 100) * 0.5)` — note: the
  -- source applies no clamp of errPercent at 100.
  let score7 :=
    if 5 < metrics.errPercent then score6 * (1 - metrics.errPercent / 100 * (1/2))
    else score6
  let finalScore : ℚ :=
    if 0 < weights4 then min 100 (max 0 (score7 / weights4 * 100)) else 0
  { overall := round2 finalScore
    breakdown := {
      -- line 164: the reported subscribers component is NOT passed through
      -- `Math.min(25, ...)`, unlike the in-score `subscriberScore` above.
      subscribers :=
        round2 (if 0 < metrics.subscribers then log10 metrics.subscribers * 5 else 0)
      reach := round2 (min 30 (metrics.reachPercentage * 2))
      engagement := round2 (min 25 (metrics.engagementRate * 5))
      ci := round2 (min 20 (metrics.ciIndex * 20)) }
    modifiers := {
      category := catMult
      verified := if metrics.verified then 11/10 else 1
      err :=
        if 5 < metrics.errPercent then 1 - metrics.errPercent / 100 * (1/2)
        else 1 } }

/-- The `engagement.views` sub-record. -/
structure ViewsBlock where
  total : ℚ
  perSubscriber : ℚ

/-- The `engagement.forwards` / `engagement.mentions` sub-record. -/
structure RateBlock where
  total : ℚ
  rate : ℚ

/-- The `engagement.activity` sub-record. -/
structure ActivityBlock where
  postsPerDay : ℚ
  consistency : String

/-- The engagement object as first built in `calculateEngagementMetrics`
(lines 181-201), before `viralPotential` is attached. -/
structure EngagementCore where
  views : ViewsBlock
  forwards : RateBlock
  mentions : RateBlock
  activity : ActivityBlock

/-- Full result of `calculateEngagementMetrics`. -/
structure EngagementMetrics where
  views : ViewsBlock
  forwards : RateBlock
  mentions : RateBlock
  activity : ActivityBlock
  viralPotential : ℚ

/-- Source `calculateConsistencyScore(postsPerDay)`, lines 212-218. -/
def calculateConsistencyScore (postsPerDay : ℚ) : String :=
  if 1 ≤ postsPerDay ∧ postsPerDay ≤ 3 then "excellent"
  else if 1/2 ≤ postsPerDay ∧ postsPerDay < 1 then "good"
  else if 1/5 ≤ postsPerDay ∧ postsPerDay < 1/2 then "average"
  else if 3 < postsPerDay then "too_frequent"
  else "poor"

/-- Source `calculateViralPotential(engagementMetrics)`, lines 223-246. -/
def calculateViralPotential (engagementMetrics : EngagementCore) : ℚ :=
  let v1 : ℚ :=
    if 5 < engagementMetrics.forwards.rate then 40
    else if 2 < engagementMetrics.forwards.rate then 25
    else if 1 < engagementMetrics.forwards.rate then 15
    else 0
  let v2 : ℚ :=
    if 3 < engagementMetrics.mentions.rate then 30
    else if 1 < engagementMetrics.mentions.rate then 20
    else if 1/2 < engagementMetrics.mentions.rate then 10
    else 0
  let v3 : ℚ :=
    if 12/10 < engagementMetrics.views.perSubscriber then 20
    else if 1 < engagementMetrics.views.perSubscriber then 15
    else if 8/10 < engagementMetrics.views.perSubscriber then 10
    else 0
  let v4 : ℚ :=
    if engagementMetrics.activity.consistency = "excellent" then 10
    else if engagementMetrics.activity.consistency = "good" then 5
    else 0
  min 100 (v1 + v2 + v3 + v4)

/-- Source `calculateEngagementMetrics(metrics)`, lines 180-207. -/
def calculateEngagementMetrics (metrics : MetricsBundle) : EngagementMetrics :=
  let engagement : EngagementCore := {
    views := {
      total := metrics.viewsPerPost
      perSubscriber :=
        if 0 < metrics.subscribers then
          (jsRound (metrics.viewsPerPost / metrics.subscribers * 10000) : ℚ) / 10000
        else 0 }
    forwards := {
      total := metrics.forwardsPerPost
      rate :=
        if 0 < metrics.viewsPerPost then
          (jsRound (metrics.forwardsPerPost / metrics.viewsPerPost * 10000) : ℚ) / 100
        else 0 }
    mentions := {
      total := metrics.mentionsPerPost
      rate :=
        if 0 < metrics.viewsPerPost then
          (jsRound (metrics.mentionsPerPost / metrics.viewsPerPost * 10000) : ℚ) / 100
        else 0 }
    activity := {
      postsPerDay := metrics.postsPerDay
      consistency := calculateConsistencyScore metrics.postsPerDay } }
  { views := engagement.views
    forwards := engagement.forwards
    mentions := engagement.mentions
    activity := engagement.activity
    viralPotential := calculateViralPotential engagement }

/-- One advisory entry produced by `generateRecommendations`. -/
structure Recommendation where
  type : String
  title : String
  message : String

/-- Source `generateRecommendations(metrics, qualityScore)`, lines 251-308.
The JS template literal interpolations are string concatenations here;
the decimal rendering of the number differs from the rational rendering,
which no claim observes. -/
def generateRecommendations (metrics : MetricsBundle)
    (qualityScore : QualityScore) : List Recommendation :=
  let verdict : Recommendation :=
    if 90 ≤ qualityScore.overall then
      { type := "success"
        title := "Отличный канал"
        message := "Высокие показатели качества. Рекомендуется для рекламных кампаний." }
    else if 70 ≤ qualityScore.overall then
      { type := "info"
        title := "Хороший канал"
        message := "Неплохие показатели. Подходит для большинства рекламных задач." }
    else
      { type := "warning"
        title := "Требует проверки"
        message := "Показатели ниже среднего. Рекомендуется дополнительный анализ." }
  let recs1 := [verdict]
  let recs2 :=
    if metrics.reachPercentage < 20 then
      recs1 ++ [{ type := "warning"
                  title := "Низкий охват"
                  message := "Охват составляет только "
                    ++ toString metrics.reachPercentage ++ "% от подписчиков" }]
    else recs1
  let recs3 :=
    if 10 < metrics.errPercent then
      recs2 ++ [{ type := "danger"
                  title := "Высокий ERR"
                  message := "ERR " ++ toString metrics.errPercent
                    ++ "% может указывать на накрутку" }]
    else recs2
  let recs4 :=
    if metrics.engagementRate < 5 then
      recs3 ++ [{ type := "info"
                  title := "Низкая вовлеченность"
                  message := "Рассмотрите каналы с более высокой вовлеченностью аудитории" }]
    else recs3
  if 5 < metrics.postsPerDay then
    recs4 ++ [{ type := "warning"
                title := "Слишком частые посты"
                message := "Высокая частота публикаций может снижать внимание к рекламе" }]
  else recs4

/-- Subscriber-count adjustment of the base CPM (lines 317-320): the
`baseCpm *=` chain over mutually exclusive tiers, expressed as the factor
it multiplies by (1 when no tier applies). -/
def subscriberTierFactor (subscribers : ℚ) : ℚ :=
  if 100000 < subscribers then 15/10
  else if 50000 < subscribers then 13/10
  else if 10000 < subscribers then 11/10
  else if subscribers < 1000 then 1/2
  else 1

/-- Engagement adjustment of the base CPM (lines 331-333), as a factor. -/
def engagementTierFactor (engagementRate : ℚ) : ℚ :=
  if 15 < engagementRate then 14/10
  else if 10 < engagementRate then 12/10
  else if engagementRate < 3 then 8/10
  else 1

/-- The fully adjusted `baseCpm` of `estimateAdPrice` (lines 314-336):
base 100 multiplied in order by subscriber tier, category multiplier,
quality multiplier `0.5 + overall/100`, engagement tier, and the
verified premium. -/
def adBaseCpm (metrics : MetricsBundle) (qualityScore : QualityScore) : ℚ :=
  100 * subscriberTierFactor metrics.subscribers
    * categoryMultiplier metrics.category
    * (1/2 + qualityScore.overall / 100)
    * engagementTierFactor metrics.engagementRate
    * (if metrics.verified then 12/10 else 1)

/-- The `priceEstimate.cpm` record. -/
structure CpmRange where
  min : ℤ
  max : ℤ
  avg : ℤ
  currency : String

/-- The `priceEstimate.postPrice` record. -/
structure PostPrice where
  estimated : ℤ
  currency : String

/-- The `priceEstimate.factors` record. -/
structure PriceFactors where
  subscribers : ℚ
  category : String
  quality : ℚ
  engagement : ℚ
  verified : Bool

/-- Result of `estimateAdPrice`. -/
structure PriceEstimate where
  cpm : CpmRange
  postPrice : PostPrice
  factors : PriceFactors

/-- Source `estimateAdPrice(metrics, qualityScore)`, lines 313-366. -/
def estimateAdPrice (metrics : MetricsBundle) (qualityScore : QualityScore) :
    PriceEstimate :=
  let baseCpm := adBaseCpm metrics qualityScore
  let minPrice := jsRound (baseCpm * (7/10))
  let maxPrice := jsRound (baseCpm * (13/10))
  let avgPrice := jsRound baseCpm
  -- `metrics.avgReach || (metrics.subscribers * 0.3)`: truthiness again.
  let estimatedViews :=
    if metrics.avgReach = 0 then metrics.subscribers * (3/10) else metrics.avgReach
  let postPrice := jsRound ((avgPrice : ℚ) / 1000 * (estimatedViews / 1000) * 1000)
  { cpm := { min := minPrice, max := maxPrice, avg := avgPrice, currency := "RUB" }
    postPrice := { estimated := postPrice, currency := "RUB" }
    factors := {
      subscribers := metrics.subscribers
      category := metrics.category
      quality := qualityScore.overall
      engagement := metrics.engagementRate
      verified := metrics.verified } }

/-- The `channel` identity sub-record of a successful analysis
(`analyzeChannel`, lines 41-49): raw snapshot fields, copied as-is. -/
structure ChannelIdentity where
  username : Option String
  title : Option String
  description : Option String
  participants_count : Option ℚ
  category : Option String
  verified : Option Bool
  language : Option String

/-- The success payload of `analyzeChannel` (lines 39-56).  The
`analysisTimestamp` (`new Date().toISOString()`) is wall-clock input and
is outside this pure model; no claim observes it. -/
structure AnalysisSuccess where
  channel : ChannelIdentity
  metrics : MetricsBundle
  qualityScore : QualityScore
  engagementMetrics : EngagementMetrics
  recommendations : List Recommendation
  priceEstimate : PriceEstimate

/-- Result of `analyzeChannel`: the tagged union of the
`success: true` record and the `success: false` record (lines 57-63).
The failure carries `error` and the `channel` field, which is `null`
(`none`) when `channelData` itself was `null`, else an object holding the
raw `username`. -/
inductive AnalysisResult where
  | ok (r : AnalysisSuccess)
  | fail (error : String) (channel : Option (Option String))

/-- The `success` tag of an `AnalysisResult`. -/
def AnalysisResult.isOk : AnalysisResult → Bool
  | .ok _ => true
  | .fail _ _ => false

/-- Message of the `TypeError` thrown when a property of a `null` /
`undefined` value is read.  The JS runtime message names the property;
the model keeps one generic message, which no claim distinguishes. -/
def typeErrorMsg : String := "TypeError: cannot read properties of null or undefined"

/-- Source `analyzeChannel(channelData, statsData)`, lines 31-64.  The entire
pipeline runs inside one `try`.  On the rational fragment modelled here
the only reachable runtime fault in the `try` block is the property read
`channelData.participants_count` on a `null`/`undefined` `channelData`
(line 70); every other computation is total.  The `catch` converts the
fault into the failure record.  Note that `validateAnalysisData` is never
called on this path. -/
def analyzeChannel (log10 : ℚ → ℚ) (channelData : Option ChannelSnapshot)
    (statsData : Option PeriodStats) : AnalysisResult :=
  match channelData with
  | none => .fail typeErrorMsg none
  | some c =>
    let metrics := calculateChannelMetrics c statsData
    let qualityScore := calculateQualityScore log10 metrics
    let engagementMetrics := calculateEngagementMetrics metrics
    let recommendations := generateRecommendations metrics qualityScore
    let priceEstimate := estimateAdPrice metrics qualityScore
    .ok {
      channel := {
        username := c.username
        title := c.title
        description := c.description
        participants_count := c.participants_count
        category := c.category
        verified := c.verified
        language := c.language }
      metrics := metrics
      qualityScore := qualityScore
      engagementMetrics := engagementMetrics
      recommendations := recommendations
      priceEstimate := priceEstimate }

/-- Source `validateAnalysisData(channelData)`, lines 497-511: the explicit
pre-check that throws on missing data, missing/empty username, or a
non-numeric or negative subscriber count, and returns `true` otherwise. -/
def validateAnalysisData (channelData : Option ChannelSnapshot) :
    Except String Bool :=
  match channelData with
  | none => .error "Данные канала не предоставлены"
  | some c =>
    if c.username = none ∨ c.username = some "" then
      .error "Не указано имя канала"
    else
      match c.participants_count with
      | none => .error "Некорректное количество подписчиков"
      | some p =>
        if p < 0 then .error "Некорректное количество подписчиков"
        else .ok true

/-- One element of the `compareChannels` input array: `channel.info` and
`channel.stats` (both possibly `null`/`undefined`). -/
structure BatchItem where
  info : Option ChannelSnapshot
  stats : Option PeriodStats

/-- One element of the `comparisons` array: an analysis result plus the
`rank` field added by the spread on lines 374-377. -/
structure RankedEntry where
  result : AnalysisResult
  rank : ℕ

/-- The `qualityScore.overall` of a result, as a total function (0 on a
failure record, whose real JS counterpart has no `qualityScore` at all;
every use below either guards on success or goes through the
`TypeError`-raising step `sortComparisons`). -/
def overallOf : AnalysisResult → ℚ
  | .ok r => r.qualityScore.overall
  | .fail _ _ => 0

/-- The sort comparator `(a, b) => b.qualityScore.overall -
a.qualityScore.overall` (line 381), as the total preorder "a sorts no
later than b": comparator value ≤ 0, i.e. descending by overall score. -/
def rankLE (a b : RankedEntry) : Bool :=
  decide (overallOf b.result ≤ overallOf a.result)

/-- The `comparisons.sort(...)` step (line 381) of `compareChannels`.
ES2019 `Array.prototype.sort` is stable, and with a consistent comparator
it produces the unique descending, tie-stable order — which
`List.mergeSort` with `rankLE` also produces.  With two or more elements
every element is passed to the comparator at least once, so a failure
entry (whose `qualityScore` is `undefined`) makes the comparator throw a
`TypeError`; with at most one element the comparator is never invoked. -/
def sortComparisons (l : List RankedEntry) : Except String (List RankedEntry) :=
  if l.length ≤ 1 then .ok l
  else if l.all (fun e => e.result.isOk) then .ok (l.mergeSort rankLE)
  else .error typeErrorMsg

/-- The `comparisons.forEach((item, index) => item.rank = index + 1)`
step (lines 384-386), started at 1. -/
def assignRanks : ℕ → List RankedEntry → List RankedEntry
  | _, [] => []
  | i, e :: es => { e with rank := i } :: assignRanks (i + 1) es

/-- Per-category accumulator / result record of `calculateCategoryStats`.
As in the source, the same fields first hold running sums and then the
rounded averages. -/
structure CategoryStat where
  count : ℕ
  avgScore : ℚ
  avgSubscribers : ℚ
  avgCpm : ℚ

/-- One `categories[category]` update of `calculateCategoryStats`
(lines 418-433) on an insertion-ordered association list, which models
the string-keyed JS object. -/
def bumpCategory (categories : List (String × CategoryStat)) (category : String)
    (score subs cpm : ℚ) : List (String × CategoryStat) :=
  match categories with
  | [] => [(category, { count := 1, avgScore := score, avgSubscribers := subs, avgCpm := cpm })]
  | (k, v) :: rest =>
    if k = category then
      (k, { count := v.count + 1
            avgScore := v.avgScore + score
            avgSubscribers := v.avgSubscribers + subs
            avgCpm := v.avgCpm + cpm }) :: rest
    else (k, v) :: bumpCategory rest category score subs cpm

/-- The accumulation loop of `calculateCategoryStats` (lines 418-433), a
left fold over the channel entries.  Reading `channel.metrics.category`
(and the score / cpm fields) of a failure entry is a property access on
`undefined` and throws. -/
def catStatsSums (channels : List RankedEntry)
    (acc : List (String × CategoryStat)) :
    Except String (List (String × CategoryStat)) :=
  match channels with
  | [] => .ok acc
  | e :: rest =>
    match e.result with
    | .ok r => catStatsSums rest (bumpCategory acc r.metrics.category
        r.qualityScore.overall r.metrics.subscribers (r.priceEstimate.cpm.avg : ℚ))
    | .fail _ _ => .error typeErrorMsg

/-- Source `calculateCategoryStats(channels)`, lines 415-444: accumulate per
category, then replace the sums by rounded averages (lines 436-441). -/
def calculateCategoryStats (channels : List RankedEntry) :
    Except String (List (String × CategoryStat)) := do
  let sums ← catStatsSums channels []
  Except.ok (sums.map (fun p =>
    (p.1, { count := p.2.count
            avgScore := round2 (p.2.avgScore / p.2.count)
            avgSubscribers := (jsRound (p.2.avgSubscribers / p.2.count) : ℚ)
            avgCpm := (jsRound (p.2.avgCpm / p.2.count) : ℚ) })))

/-- One `comparisons.reduce((sum, ch) => sum + f(ch), 0)` over the ranked
array (lines 395-406), as a left fold; reading the field of a failure
entry throws. -/
def sumMetricE (f : AnalysisSuccess → ℚ) (acc : ℚ) :
    List RankedEntry → Except String ℚ
  | [] => .ok acc
  | e :: rest =>
    match e.result with
    | .ok r => sumMetricE f (acc + f r) rest
    | .fail _ _ => .error typeErrorMsg

/-- The `summary` record of the comparison report. -/
structure ComparisonSummary where
  total : ℕ
  avgQualityScore : ℚ
  avgSubscribers : ℤ
  avgReach : ℚ
  categoryStats : List (String × CategoryStat)

/-- Result of `compareChannels`. -/
structure ComparisonReport where
  channels : List RankedEntry
  summary : ComparisonSummary

/-- The `comparisons` array of `compareChannels` (lines 372-378): every
analysis result, annotated with the placeholder rank 0. -/
def mkComparisons (log10 : ℚ → ℚ) (channelsData : List BatchItem) :
    List RankedEntry :=
  channelsData.map (fun channel =>
    { result := analyzeChannel log10 channel.info channel.stats
      rank := 0 : RankedEntry })

/-- Source `compareChannels(channelsData)`, lines 371-410 (continued).  Any
`TypeError` raised by the sort comparator, the category aggregation or
the summary reductions propagates out of the function (there is no `try`
here).  For an empty batch the JS averages are `0/0 = NaN`; the rational
model yields 0 there, a divergence no claim observes. -/
def compareChannels (log10 : ℚ → ℚ) (channelsData : List BatchItem) :
    Except String ComparisonReport := do
  let comparisons := mkComparisons log10 channelsData
  let sorted ← sortComparisons comparisons
  let ranked := assignRanks 1 sorted
  let categoryStats ← calculateCategoryStats ranked
  let sumScore ← sumMetricE (fun r => r.qualityScore.overall) 0 ranked
  let sumSubs ← sumMetricE (fun r => r.metrics.subscribers) 0 ranked
  let sumReach ← sumMetricE (fun r => r.metrics.reachPercentage) 0 ranked
  Except.ok {
    channels := ranked
    summary := {
      total := ranked.length
      avgQualityScore := round2 (sumScore / ranked.length)
      avgSubscribers := jsRound (sumSubs / ranked.length)
      avgReach := round2 (sumReach / ranked.length)
      categoryStats := categoryStats } }

/-- A snapshot with every field absent. -/
def emptySnapshot : ChannelSnapshot :=
  { username := none
    title := none
    description := none
    participants_count := none
    avg_post_reach := none
    ci_index := none
    err_percent := none
    category := none
    verified := none
    language := none }

/-- Sample instantiation of the abstract `Math.log10` used in concrete
evaluations: exact at the one input a concrete theorem applies it to
(`Math.log10 1000000 = 6` exactly, also in IEEE doubles). -/
def testLog10 (q : ℚ) : ℚ := if q = 1000000 then 6 else 0

/-- The all-zero metrics bundle of Scenario B (subscribers 0, every other
metric 0, no category / verification / language information). -/
def mZero : MetricsBundle :=
  { subscribers := 0
    avgReach := 0
    reachPercentage := 0
    engagementRate := 0
    ciIndex := 0
    errPercent := 0
    postsPerDay := 0
    viewsPerPost := 0
    forwardsPerPost := 0
    mentionsPerPost := 0
    category := "unknown"
    verified := false
    language := "unknown" }

/-- A bundle whose only nonzero metric is an ERR percentage of 200. -/
def mErr200 : MetricsBundle := { mZero with errPercent := 200 }

/-- A bundle with a million subscribers and no other signal. -/
def mSub1e6 : MetricsBundle := { mZero with subscribers := 1000000 }

/-- Period statistics that report `posts_count: 0` explicitly, over an
explicit 7-day period. -/
def statsZeroPosts : PeriodStats :=
  { period := some 7
    posts_count := some 0
    views_per_post := none
    forwards_per_post := none
    mentions_per_post := none
    avg_post_reach := none
    ci_index := none }

/-- Period statistics with 14 posts over an explicit 7-day period. -/
def statsFourteenPosts : PeriodStats := { statsZeroPosts with posts_count := some 14 }

/-- Snapshot with a negative subscriber count and no username. -/
def snapNegative : ChannelSnapshot :=
  { emptySnapshot with participants_count := some (-5) }

/-- Snapshot whose own reach and citation fields are present but zero. -/
def snapZeroFields : ChannelSnapshot :=
  { emptySnapshot with avg_post_reach := some 0, ci_index := some 0 }

/-- Period statistics carrying positive reach and citation values. -/
def statsPositive : PeriodStats :=
  { period := none
    posts_count := none
    views_per_post := none
    forwards_per_post := none
    mentions_per_post := none
    avg_post_reach := some 5
    ci_index := some 5 }

/-- First healthy snapshot of the mixed batch: 5000 subscribers. -/
def snapAlpha : ChannelSnapshot :=
  { emptySnapshot with username := some "alpha", participants_count := some 5000 }

/-- Second healthy snapshot of the mixed batch: 2000 subscribers, reach 400. -/
def snapBeta : ChannelSnapshot :=
  { emptySnapshot with
      username := some "beta"
      participants_count := some 2000
      avg_post_reach := some 400 }

/-- A batch of three channels whose middle element has a `null` `info`
record, so its analysis fails (Scenario D shape). -/
def batchWithFailure : List BatchItem :=
  [ { info := some snapAlpha, stats := none }
  , { info := none, stats := none }
  , { info := some snapBeta, stats := none } ]

/-- A batch of three channels that all analyze successfully. -/
def batchAllGood : List BatchItem :=
  [ { info := some snapAlpha, stats := none }
  , { info := some snapBeta, stats := none }
  , { info := some emptySnapshot, stats := none } ]

/-- A fixed quality-score record with overall 50, used to instantiate
price-estimation statements. -/
def qFifty : QualityScore :=
  { overall := 50
    breakdown := { subscribers := 0, reach := 0, engagement := 0, ci := 0 }
    modifiers := { category := 1, verified := 1, err := 1 } }

/-! ### Rounding lemmas -/

/-- JavaScript `Math.round` is monotone. -/
theorem jsRound_mono {x y : ℚ} (h : x ≤ y) : jsRound x ≤ jsRound y :=
  Int.floor_le_floor (by linarith)

/-- JavaScript `Math.round` of a nonnegative number is nonnegative. -/
theorem jsRound_nonneg {x : ℚ} (h : 0 ≤ x) : 0 ≤ jsRound x :=
  Int.le_floor.mpr (by push_cast; linarith)

/-- JavaScript `Math.round` fixes integers. -/
theorem jsRound_intCast (k : ℤ) : jsRound (k : ℚ) = k := by
  unfold jsRound
  rw [add_comm, Int.floor_add_int]
  norm_num

/-- Two-decimal rounding of a nonnegative number is nonnegative. -/
theorem round2_nonneg {x : ℚ} (h : 0 ≤ x) : 0 ≤ round2 x := by
  unfold round2
  have := jsRound_nonneg (mul_nonneg h (by norm_num : (0:ℚ) ≤ 100))
  positivity

/-- Two-decimal rounding cannot cross an integer bound from below. -/
theorem round2_le_intCast {x : ℚ} {k : ℤ} (h : x ≤ (k : ℚ)) : round2 x ≤ (k : ℚ) := by
  unfold round2
  rw [div_le_iff₀ (by norm_num : (0:ℚ) < 100)]
  have h1 : jsRound (x * 100) ≤ jsRound ((k : ℚ) * 100) :=
    jsRound_mono (by nlinarith)
  have h2 : jsRound ((k : ℚ) * 100) = k * 100 := by
    have hk : ((k : ℚ) * 100) = ((k * 100 : ℤ) : ℚ) := by push_cast; ring
    rw [hk, jsRound_intCast]
  calc (jsRound (x * 100) : ℚ) ≤ (jsRound ((k : ℚ) * 100) : ℚ) := by exact_mod_cast h1
    _ = ((k * 100 : ℤ) : ℚ) := by exact_mod_cast h2
    _ = (k : ℚ) * 100 := by push_cast; ring

/-! ### Quality scorer: C2, C4, C5, and the log10-independence of
degenerate inputs -/

/-- C2: for every metrics bundle with subscribers ≥ 0 and all other
numeric metric fields ≥ 0 (and in fact for every bundle and every choice
of the abstract `Math.log10`), the `overall` field produced by
`calculateQualityScore` lies in the closed interval [0, 100]: the source
clamps `score / weights * 100` with `Math.min(100, Math.max(0, …))`
(or returns 0 when no weight is active), and two-decimal rounding
preserves the bounds. -/
theorem quality_overall_in_range (log10 : ℚ → ℚ) (m : MetricsBundle)
    (h1 : 0 ≤ m.subscribers) (h2 : 0 ≤ m.avgReach) (h3 : 0 ≤ m.reachPercentage)
    (h4 : 0 ≤ m.engagementRate) (h5 : 0 ≤ m.ciIndex) (h6 : 0 ≤ m.errPercent)
    (h7 : 0 ≤ m.postsPerDay) (h8 : 0 ≤ m.viewsPerPost)
    (h9 : 0 ≤ m.forwardsPerPost) (h10 : 0 ≤ m.mentionsPerPost) :
    0 ≤ (calculateQualityScore log10 m).overall ∧
      (calculateQualityScore log10 m).overall ≤ 100 := by
  have key : ∀ w e : ℚ,
      0 ≤ round2 (if 0 < w then min 100 (max 0 e) else 0) ∧
        round2 (if 0 < w then min 100 (max 0 e) else 0) ≤ 100 := by
    intro w e
    have hlo : 0 ≤ (if 0 < w then min 100 (max 0 e) else 0 : ℚ) := by
      split
      · exact le_min (by norm_num) (le_max_left 0 e)
      · exact le_refl 0
    have hhi : (if 0 < w then min 100 (max 0 e) else 0 : ℚ) ≤ 100 := by
      split
      · exact min_le_left _ _
      · norm_num
    refine ⟨round2_nonneg hlo, ?_⟩
    have := round2_le_intCast (k := 100) (by exact_mod_cast hhi)
    exact_mod_cast this
  exact key _ _

/-- Witness for C2 at the all-zero bundle. -/
theorem quality_overall_in_range_witness :
    0 ≤ (calculateQualityScore testLog10 mZero).overall ∧
      (calculateQualityScore testLog10 mZero).overall ≤ 100 :=
  quality_overall_in_range testLog10 mZero (by decide) (by decide) (by decide)
    (by decide) (by decide) (by decide) (by decide) (by decide) (by decide)
    (by decide)

/-- C5 (amended): the ERR penalty multiplier reported in
`modifiers.err` (and applied to the score by the same expression on
line 155) is `1 - errPercent/100 * 0.5` with NO clamp of `errPercent`
at 100 when `errPercent > 5`, and 1 when `errPercent ≤ 5`.  In
particular it drops below 0.5 as soon as `errPercent > 100` and becomes
negative for `errPercent > 200`. -/
theorem errPenalty_reported (log10 : ℚ → ℚ) (m : MetricsBundle) :
    (5 < m.errPercent →
      (calculateQualityScore log10 m).modifiers.err =
        1 - m.errPercent / 100 * (1/2)) ∧
    (m.errPercent ≤ 5 → (calculateQualityScore log10 m).modifiers.err = 1) := by
  constructor
  · intro h
    show (if 5 < m.errPercent then 1 - m.errPercent / 100 * (1/2) else 1) = _
    rw [if_pos h]
  · intro h
    show (if 5 < m.errPercent then 1 - m.errPercent / 100 * (1/2) else 1) = 1
    rw [if_neg (not_lt.mpr h)]

/-- Witness for C5 (amended) at `errPercent = 200`, where the reported
multiplier is `1 - 200/100 * 0.5 = 0`. -/
theorem errPenalty_reported_witness :
    (calculateQualityScore testLog10 mErr200).modifiers.err =
      1 - mErr200.errPercent / 100 * (1/2) :=
  (errPenalty_reported testLog10 mErr200).1 (by decide)

/-- Counterexample to C5 as stated: at `errPercent = 200` the claimed
multiplier `1 - min(errPercent,100)/100 * 0.5` equals 1/2, but the code
reports 0, which is also strictly below the claimed lower bound 0.5. -/
theorem errPenalty_claim_false :
    (calculateQualityScore testLog10 mErr200).modifiers.err = 0 ∧
    (1 - min mErr200.errPercent 100 / 100 * (1/2) : ℚ) = 1/2 ∧
    (calculateQualityScore testLog10 mErr200).modifiers.err <
      1 - min mErr200.errPercent 100 / 100 * (1/2) := by
  have herr : (calculateQualityScore testLog10 mErr200).modifiers.err = 0 := by
    show (if 5 < mErr200.errPercent then 1 - mErr200.errPercent / 100 * (1/2) else 1) = 0
    norm_num [mErr200, mZero]
  have hclaim : (1 - min mErr200.errPercent 100 / 100 * (1/2) : ℚ) = 1/2 := by
    norm_num [mErr200, mZero, min_def]
  refine ⟨herr, hclaim, ?_⟩
  rw [herr, hclaim]
  norm_num

/-- C4 (amended): of the four reported breakdown components, reach,
engagement and ci are capped at 30, 25 and 20 points respectively, but
the subscribers component is reported UNCAPPED as
`round2(log10(subscribers) * 5)` whenever subscribers > 0 (line 164 has
no `Math.min(25, …)`), even though the capped value is what enters the
overall score. -/
theorem breakdown_caps (log10 : ℚ → ℚ) (m : MetricsBundle) :
    (calculateQualityScore log10 m).breakdown.reach ≤ 30 ∧
    (calculateQualityScore log10 m).breakdown.engagement ≤ 25 ∧
    (calculateQualityScore log10 m).breakdown.ci ≤ 20 ∧
    (0 < m.subscribers →
      (calculateQualityScore log10 m).breakdown.subscribers =
        round2 (log10 m.subscribers * 5)) := by
  refine ⟨?_, ?_, ?_, ?_⟩
  · have h := round2_le_intCast (k := 30)
      (by exact_mod_cast min_le_left 30 (m.reachPercentage * 2))
    exact_mod_cast h
  · have h := round2_le_intCast (k := 25)
      (by exact_mod_cast min_le_left 25 (m.engagementRate * 5))
    exact_mod_cast h
  · have h := round2_le_intCast (k := 20)
      (by exact_mod_cast min_le_left 20 (m.ciIndex * 20))
    exact_mod_cast h
  · intro h
    show round2 (if 0 < m.subscribers then log10 m.subscribers * 5 else 0) = _
    rw [if_pos h]

/-- Witness for C4 (amended) at a million subscribers. -/
theorem breakdown_caps_witness :
    (calculateQualityScore testLog10 mSub1e6).breakdown.reach ≤ 30 ∧
    (calculateQualityScore testLog10 mSub1e6).breakdown.engagement ≤ 25 ∧
    (calculateQualityScore testLog10 mSub1e6).breakdown.ci ≤ 20 ∧
    (calculateQualityScore testLog10 mSub1e6).breakdown.subscribers =
      round2 (testLog10 mSub1e6.subscribers * 5) := by
  have h := breakdown_caps testLog10 mSub1e6
  exact ⟨h.1, h.2.1, h.2.2.1, h.2.2.2 (by decide)⟩

/-- Counterexample to C4 as stated: with 10^6 subscribers
(`Math.log10 = 6` exactly) the reported subscribers breakdown is 30,
strictly above the claimed cap `min(25, log10(subscribers)*5) = 25`. -/
theorem breakdown_subscribers_uncapped :
    (calculateQualityScore testLog10 mSub1e6).breakdown.subscribers = 30 ∧
    (min 25 (testLog10 mSub1e6.subscribers * 5) : ℚ) = 25 ∧
    25 < (calculateQualityScore testLog10 mSub1e6).breakdown.subscribers := by
  have hsub : (calculateQualityScore testLog10 mSub1e6).breakdown.subscribers = 30 := by
    show round2 (if 0 < mSub1e6.subscribers then testLog10 mSub1e6.subscribers * 5 else 0) = 30
    norm_num [mSub1e6, mZero, testLog10, round2, jsRound]
  have hmin : (min 25 (testLog10 mSub1e6.subscribers * 5) : ℚ) = 25 := by
    norm_num [mSub1e6, mZero, testLog10, min_def]
  refine ⟨hsub, hmin, ?_⟩
  rw [hsub]
  norm_num

/-- When subscribers ≤ 0, `calculateQualityScore` does not depend on the
abstract `Math.log10`: both of its uses are guarded by
`metrics.subscribers > 0`. -/
theorem qualityScore_log10_irrelevant {m : MetricsBundle} (h : m.subscribers ≤ 0)
    (f g : ℚ → ℚ) : calculateQualityScore f m = calculateQualityScore g m := by
  unfold calculateQualityScore
  simp only [if_neg (not_lt.mpr h)]

/-- C3 (amended): in Scenario B (all-zero metrics bundle) the overall
score is 0 and all breakdown components are 0, for any `Math.log10`; the
CPM estimate is derived from base CPM 100 with subscriber-tier factor
0.5 — 0 subscribers DOES match the `< 1000` tier — together with
category factor 1, quality factor 0.5 and engagement factor 0.8, giving
cpm min/avg/max = 14/20/26. -/
theorem scenarioB_values (log10 : ℚ → ℚ) :
    (calculateQualityScore log10 mZero).overall = 0 ∧
    (calculateQualityScore log10 mZero).breakdown.subscribers = 0 ∧
    (calculateQualityScore log10 mZero).breakdown.reach = 0 ∧
    (calculateQualityScore log10 mZero).breakdown.engagement = 0 ∧
    (calculateQualityScore log10 mZero).breakdown.ci = 0 ∧
    subscriberTierFactor mZero.subscribers = 1/2 ∧
    adBaseCpm mZero (calculateQualityScore log10 mZero) =
      100 * (1/2) * 1 * (1/2 + 0/100) * (8/10) * 1 ∧
    (estimateAdPrice mZero (calculateQualityScore log10 mZero)).cpm.min = 14 ∧
    (estimateAdPrice mZero (calculateQualityScore log10 mZero)).cpm.avg = 20 ∧
    (estimateAdPrice mZero (calculateQualityScore log10 mZero)).cpm.max = 26 := by
  have hq : calculateQualityScore log10 mZero = calculateQualityScore (fun _ => 0) mZero :=
    qualityScore_log10_irrelevant (by norm_num [mZero]) log10 (fun _ => 0)
  rw [hq]
  refine ⟨?_, ?_, ?_, ?_, ?_, ?_, ?_, ?_, ?_, ?_⟩ <;>
    norm_num [calculateQualityScore, estimateAdPrice, adBaseCpm,
      subscriberTierFactor, engagementTierFactor, categoryMultiplier,
      categoryMultiplierTable, jsOrQ, mZero, round2, jsRound]

/-- Witness for C3 (amended) at a concrete `Math.log10`
instantiation. -/
theorem scenarioB_values_witness :
    (calculateQualityScore testLog10 mZero).overall = 0 ∧
    (calculateQualityScore testLog10 mZero).breakdown.subscribers = 0 ∧
    (calculateQualityScore testLog10 mZero).breakdown.reach = 0 ∧
    (calculateQualityScore testLog10 mZero).breakdown.engagement = 0 ∧
    (calculateQualityScore testLog10 mZero).breakdown.ci = 0 ∧
    subscriberTierFactor mZero.subscribers = 1/2 ∧
    adBaseCpm mZero (calculateQualityScore testLog10 mZero) =
      100 * (1/2) * 1 * (1/2 + 0/100) * (8/10) * 1 ∧
    (estimateAdPrice mZero (calculateQualityScore testLog10 mZero)).cpm.min = 14 ∧
    (estimateAdPrice mZero (calculateQualityScore testLog10 mZero)).cpm.avg = 20 ∧
    (estimateAdPrice mZero (calculateQualityScore testLog10 mZero)).cpm.max = 26 :=
  scenarioB_values testLog10

/-- Counterexample to C3 as stated: a subscriber-tier factor of 1.0 in
Scenario B would put the average CPM at `round(100*1*1*0.5*0.8) = 40`,
but 0 subscribers matches the `< 1000` tier (factor 0.5) and the code
yields 20. -/
theorem scenarioB_tier_claim_false :
    subscriberTierFactor mZero.subscribers = 1/2 ∧
    jsRound ((100:ℚ) * 1 * 1 * (1/2 + 0/100) * (8/10) * 1) = 40 ∧
    (estimateAdPrice mZero (calculateQualityScore testLog10 mZero)).cpm.avg ≠ 40 := by
  have havg : (estimateAdPrice mZero (calculateQualityScore testLog10 mZero)).cpm.avg = 20 := by
    show jsRound (adBaseCpm mZero (calculateQualityScore testLog10 mZero)) = 20
    norm_num [calculateQualityScore, adBaseCpm, subscriberTierFactor,
      engagementTierFactor, categoryMultiplier, categoryMultiplierTable,
      jsOrQ, mZero, round2, jsRound]
  refine ⟨?_, ?_, ?_⟩
  · norm_num [subscriberTierFactor, mZero]
  · norm_num [jsRound]
  · rw [havg]; norm_num

/-! ### Metrics normalizer: C6 and C10 -/

/-- C6 (amended): when `posts_count` is supplied AND nonzero,
`postsPerDay = round1(posts_count / (period || 7))`; a supplied value of
0 is falsy and falls into the same default branch as an absent value,
giving 1; with no stats record at all the default is likewise 1. -/
theorem postsPerDay_semantics (c : ChannelSnapshot) (s : PeriodStats) :
    (∀ p : ℚ, s.posts_count = some p → p ≠ 0 →
      (calculateChannelMetrics c (some s)).postsPerDay =
        round1 (p / jsOrQ s.period 7)) ∧
    (s.posts_count = some 0 →
      (calculateChannelMetrics c (some s)).postsPerDay = 1) ∧
    (s.posts_count = none →
      (calculateChannelMetrics c (some s)).postsPerDay = 1) ∧
    (calculateChannelMetrics c none).postsPerDay = 1 := by
  refine ⟨?_, ?_, ?_, ?_⟩
  · intro p hp hne
    simp only [calculateChannelMetrics, hp, if_neg hne]
  · intro hp
    simp only [calculateChannelMetrics, hp, if_pos rfl]
    norm_num [round1, jsRound]
  · intro hp
    simp only [calculateChannelMetrics, hp]
    norm_num [round1, jsRound]
  · simp only [calculateChannelMetrics]
    norm_num [round1, jsRound]

/-- Witness for C6 (amended): 14 posts over an explicit 7-day period. -/
theorem postsPerDay_semantics_witness :
    (calculateChannelMetrics emptySnapshot (some statsFourteenPosts)).postsPerDay =
      round1 (14 / jsOrQ statsFourteenPosts.period 7) :=
  (postsPerDay_semantics emptySnapshot statsFourteenPosts).1 14 rfl (by norm_num)

/-- Counterexample to C6 as stated: with stats supplying
`posts_count: 0` over a 7-day period the claim predicts
`round1(0/7) = 0` posts per day, but the code treats the falsy 0 as
absent and yields the default 1. -/
theorem postsPerDay_zero_claim_false :
    (calculateChannelMetrics emptySnapshot (some statsZeroPosts)).postsPerDay = 1 ∧
    round1 ((0:ℚ) / 7) = 0 ∧
    (calculateChannelMetrics emptySnapshot (some statsZeroPosts)).postsPerDay ≠
      round1 ((0:ℚ) / 7) := by
  have h1 : (calculateChannelMetrics emptySnapshot (some statsZeroPosts)).postsPerDay = 1 := by
    simp only [calculateChannelMetrics, statsZeroPosts]
    norm_num [round1, jsRound]
  have h2 : round1 ((0:ℚ) / 7) = 0 := by norm_num [round1, jsRound]
  exact ⟨h1, h2, by rw [h1, h2]; norm_num⟩

/-- C10: a snapshot field that is present but 0 is treated exactly like
an absent one: when `channelData.avg_post_reach` is `some 0` or `none`
and the stats record carries a positive value, the stats value wins, and
likewise for `ci_index` (whose bundle field is its 2-decimal
rounding). -/
theorem zero_fields_fall_back (c : ChannelSnapshot) (s : PeriodStats) (r : ℚ)
    (hr : 0 < r) :
    ((c.avg_post_reach = some 0 ∨ c.avg_post_reach = none) →
      s.avg_post_reach = some r →
      (calculateChannelMetrics c (some s)).avgReach = r) ∧
    ((c.ci_index = some 0 ∨ c.ci_index = none) → s.ci_index = some r →
      (calculateChannelMetrics c (some s)).ciIndex = round2 r) := by
  have hrne : r ≠ 0 := ne_of_gt hr
  constructor
  · rintro (h | h) hs <;>
      simp [calculateChannelMetrics, jsOrQ, h, hs, hrne]
  · rintro (h | h) hs <;>
      simp [calculateChannelMetrics, jsOrQ, h, hs, hrne]

/-- Witness for C10: snapshot fields present-but-zero, stats value 5. -/
theorem zero_fields_fall_back_witness :
    (calculateChannelMetrics snapZeroFields (some statsPositive)).avgReach = 5 ∧
    (calculateChannelMetrics snapZeroFields (some statsPositive)).ciIndex = round2 5 := by
  have h := zero_fields_fall_back snapZeroFields statsPositive 5 (by norm_num)
  exact ⟨h.1 (Or.inl rfl) rfl, h.2 (Or.inl rfl) rfl⟩

/-! ### Orchestrator: C9 and C1 -/

/-- C9: `analyzeChannel` never runs the `validateAnalysisData`
pre-check: any non-null snapshot — including one with a negative
`participants_count` or a missing username — produces a success-typed
result, and a negative subscriber count is carried into
`metrics.subscribers` verbatim (it is truthy, so `|| 0` keeps it), even
though `validateAnalysisData` would have rejected the same snapshot. -/
theorem analyzeChannel_bypasses_validation (log10 : ℚ → ℚ)
    (c : ChannelSnapshot) (s : Option PeriodStats) :
    (analyzeChannel log10 (some c) s).isOk = true ∧
    (∀ p : ℚ, c.participants_count = some p → p < 0 →
      (∃ e, validateAnalysisData (some c) = Except.error e) ∧
      ∀ r, analyzeChannel log10 (some c) s = AnalysisResult.ok r →
        r.metrics.subscribers = p) ∧
    (c.username = none →
      validateAnalysisData (some c) = Except.error "Не указано имя канала") := by
  refine ⟨rfl, ?_, ?_⟩
  · intro p hp hneg
    constructor
    · by_cases hu : c.username = none ∨ c.username = some ""
      · exact ⟨"Не указано имя канала", by
          simp only [validateAnalysisData, if_pos hu]⟩
      · refine ⟨"Некорректное количество подписчиков", ?_⟩
        simp only [validateAnalysisData, if_neg hu, hp, if_pos hneg]
    · intro r hr
      simp only [analyzeChannel] at hr
      injection hr with h
      subst h
      show jsOrQ c.participants_count 0 = p
      simp [jsOrQ, hp, ne_of_lt hneg]
  · intro hu
    simp only [validateAnalysisData, if_pos (Or.inl hu)]

/-- Witness for C9 at a snapshot with no username and -5 subscribers. -/
theorem analyzeChannel_bypasses_validation_witness :
    (analyzeChannel testLog10 (some snapNegative) none).isOk = true ∧
    (∃ e, validateAnalysisData (some snapNegative) = Except.error e) ∧
    (∀ r, analyzeChannel testLog10 (some snapNegative) none = AnalysisResult.ok r →
      r.metrics.subscribers = -5) ∧
    validateAnalysisData (some snapNegative) = Except.error "Не указано имя канала" := by
  have h := analyzeChannel_bypasses_validation testLog10 snapNegative none
  have h2 := h.2.1 (-5) rfl (by norm_num)
  exact ⟨h.1, h2.1, h2.2, h.2.2 rfl⟩

/-- C1: on a batch of three channels whose middle entry fails analysis
(`info` is null, the only failure mode reachable in `analyzeChannel`),
`compareChannels` does NOT return a report: the failure entry flows into
`comparisons.sort` and the aggregation code, whose property reads on the
missing `qualityScore` / `metrics` throw a `TypeError` that propagates
out of `compareChannels`, and the summary averages would in any case
divide by the full batch length.  This contradicts the documented design
(failure results as non-fatal, countable outcomes) — a code bug rather
than a spec error. -/
theorem compareChannels_throws_on_failure :
    compareChannels testLog10 batchWithFailure = Except.error typeErrorMsg := rfl

/-! ### Price estimator: C8 -/

/-- Every subscriber-tier factor is positive. -/
theorem subscriberTierFactor_pos (s : ℚ) : 0 < subscriberTierFactor s := by
  unfold subscriberTierFactor
  split_ifs <;> norm_num

/-- Every engagement-tier factor is positive. -/
theorem engagementTierFactor_pos (e : ℚ) : 0 < engagementTierFactor e := by
  unfold engagementTierFactor
  split_ifs <;> norm_num

/-- Every category multiplier (table value or the `|| 1.0` default) is
positive. -/
theorem categoryMultiplier_pos (c : String) : 0 < categoryMultiplier c := by
  cases h : categoryMultiplierTable c with
  | none => simp [categoryMultiplier, jsOrQ, h]
  | some v =>
    have hv : 0 < v := by
      unfold categoryMultiplierTable at h
      split at h <;> simp_all <;> linarith
    simp only [categoryMultiplier, jsOrQ, h]
    split
    · norm_num
    · exact hv

/-- The fully adjusted base CPM is positive whenever the quality score
fed to it is nonnegative. -/
theorem adBaseCpm_pos {m : MetricsBundle} {q : QualityScore}
    (h : 0 ≤ q.overall) : 0 < adBaseCpm m q := by
  unfold adBaseCpm
  have h1 := subscriberTierFactor_pos m.subscribers
  have h2 := categoryMultiplier_pos m.category
  have h3 := engagementTierFactor_pos m.engagementRate
  have h4 : (0:ℚ) < 1/2 + q.overall / 100 := by
    have : (0:ℚ) ≤ q.overall / 100 := by positivity
    linarith
  have h5 : (0:ℚ) < if m.verified then 12/10 else 1 := by split <;> norm_num
  have h100 : (0:ℚ) < 100 := by norm_num
  exact mul_pos (mul_pos (mul_pos (mul_pos (mul_pos h100 h1) h2) h4) h3) h5

/-- C8: for every metrics bundle and every quality score respecting its
documented invariant `overall ≥ 0`, the CPM range of `estimateAdPrice`
satisfies `min ≤ avg ≤ max`, where min, avg and max are exactly
`Math.round` of 0.7×, 1× and 1.3× the unrounded adjusted base CPM. -/
theorem adPrice_range (m : MetricsBundle) (q : QualityScore)
    (h : 0 ≤ q.overall) :
    (estimateAdPrice m q).cpm.min ≤ (estimateAdPrice m q).cpm.avg ∧
    (estimateAdPrice m q).cpm.avg ≤ (estimateAdPrice m q).cpm.max ∧
    (estimateAdPrice m q).cpm.min = jsRound (adBaseCpm m q * (7/10)) ∧
    (estimateAdPrice m q).cpm.avg = jsRound (adBaseCpm m q) ∧
    (estimateAdPrice m q).cpm.max = jsRound (adBaseCpm m q * (13/10)) := by
  have hb : 0 < adBaseCpm m q := adBaseCpm_pos h
  have hmin : (estimateAdPrice m q).cpm.min = jsRound (adBaseCpm m q * (7/10)) := rfl
  have havg : (estimateAdPrice m q).cpm.avg = jsRound (adBaseCpm m q) := rfl
  have hmax : (estimateAdPrice m q).cpm.max = jsRound (adBaseCpm m q * (13/10)) := rfl
  refine ⟨?_, ?_, hmin, havg, hmax⟩
  · rw [hmin, havg]
    exact jsRound_mono (by nlinarith)
  · rw [havg, hmax]
    exact jsRound_mono (by nlinarith)

/-- Witness for C8 at the all-zero bundle and a score of 50. -/
theorem adPrice_range_witness :
    (0:ℚ) ≤ qFifty.overall ∧
    ((estimateAdPrice mZero qFifty).cpm.min ≤ (estimateAdPrice mZero qFifty).cpm.avg ∧
     (estimateAdPrice mZero qFifty).cpm.avg ≤ (estimateAdPrice mZero qFifty).cpm.max ∧
     (estimateAdPrice mZero qFifty).cpm.min = jsRound (adBaseCpm mZero qFifty * (7/10)) ∧
     (estimateAdPrice mZero qFifty).cpm.avg = jsRound (adBaseCpm mZero qFifty) ∧
     (estimateAdPrice mZero qFifty).cpm.max = jsRound (adBaseCpm mZero qFifty * (13/10))) :=
  ⟨by norm_num [qFifty], adPrice_range mZero qFifty (by norm_num [qFifty])⟩

/-! ### Comparator: C7 -/

/-- Bind of `Except` on a success value. -/
theorem except_bind_ok {α β : Type} (a : α) (f : α → Except String β) :
    ((Except.ok a : Except String α) >>= f) = f a := rfl

/-- The sort comparator is transitive. -/
theorem rankLE_trans : ∀ (a b c : RankedEntry),
    rankLE a b → rankLE b c → rankLE a c := by
  intro a b c h1 h2
  simp only [rankLE, decide_eq_true_eq] at h1 h2 ⊢
  exact le_trans h2 h1

/-- The sort comparator is total. -/
theorem rankLE_total : ∀ (a b : RankedEntry), rankLE a b || rankLE b a := by
  intro a b
  simp only [rankLE, Bool.or_eq_true, decide_eq_true_eq]
  exact le_total _ _

/-- Rank assignment does not change the carried results. -/
theorem assignRanks_map_result : ∀ (i : ℕ) (l : List RankedEntry),
    (assignRanks i l).map RankedEntry.result = l.map RankedEntry.result
  | _, [] => rfl
  | i, e :: es => by
    show ({ e with rank := i } : RankedEntry).result ::
        (assignRanks (i + 1) es).map RankedEntry.result =
      e.result :: es.map RankedEntry.result
    rw [assignRanks_map_result (i + 1) es]

/-- Rank assignment preserves length. -/
theorem assignRanks_length : ∀ (i : ℕ) (l : List RankedEntry),
    (assignRanks i l).length = l.length
  | _, [] => rfl
  | i, e :: es => by
    show (assignRanks (i + 1) es).length + 1 = es.length + 1
    rw [assignRanks_length (i + 1) es]

/-- The assigned ranks are the consecutive integers starting at `i`. -/
theorem assignRanks_map_rank : ∀ (i : ℕ) (l : List RankedEntry),
    (assignRanks i l).map RankedEntry.rank = List.range' i l.length
  | _, [] => rfl
  | i, e :: es => by
    show i :: (assignRanks (i + 1) es).map RankedEntry.rank =
      List.range' i (es.length + 1)
    rw [List.range'_succ, assignRanks_map_rank (i + 1) es]

/-- Rank assignment preserves any pairwise relation that only looks at
the carried results. -/
theorem assignRanks_pairwise (R : AnalysisResult → AnalysisResult → Prop)
    (i : ℕ) {l : List RankedEntry}
    (h : l.Pairwise (fun a b => R a.result b.result)) :
    (assignRanks i l).Pairwise (fun a b => R a.result b.result) := by
  have h1 : (l.map RankedEntry.result).Pairwise R := List.pairwise_map.mpr h
  rw [← assignRanks_map_result i l] at h1
  exact List.pairwise_map.mp h1

/-- On an all-success comparisons array the sort step returns the stable
descending mergeSort (for at most one element no comparison happens and
the list is returned unchanged, which is the same value). -/
theorem sortComparisons_ok {l : List RankedEntry}
    (h : l.all (fun e => e.result.isOk) = true) :
    sortComparisons l = Except.ok (l.mergeSort rankLE) := by
  cases l with
  | nil => simp [sortComparisons]
  | cons a t =>
    cases t with
    | nil => simp [sortComparisons]
    | cons b t2 =>
      unfold sortComparisons
      rw [if_neg (by simp only [List.length_cons]; omega), if_pos h]

/-- The category accumulation succeeds on an all-success array. -/
theorem catStatsSums_ok : ∀ (l : List RankedEntry),
    (∀ e ∈ l, e.result.isOk = true) →
    ∀ (acc : List (String × CategoryStat)),
    ∃ x, catStatsSums l acc = Except.ok x := by
  intro l
  induction l with
  | nil => exact fun _ acc => ⟨acc, rfl⟩
  | cons e es ih =>
    intro h acc
    have he := h e (List.mem_cons_self e es)
    cases hr : e.result with
    | ok r =>
      have step : catStatsSums (e :: es) acc = catStatsSums es
          (bumpCategory acc r.metrics.category r.qualityScore.overall
            r.metrics.subscribers (r.priceEstimate.cpm.avg : ℚ)) := by
        simp only [catStatsSums, hr]
      rw [step]
      exact ih (fun x hx => h x (List.mem_cons_of_mem e hx)) _
    | fail err ch =>
      rw [hr] at he
      simp [AnalysisResult.isOk] at he

/-- The whole category aggregation succeeds on an all-success array. -/
theorem calculateCategoryStats_ok {l : List RankedEntry}
    (h : ∀ e ∈ l, e.result.isOk = true) :
    ∃ x, calculateCategoryStats l = Except.ok x := by
  obtain ⟨s, hs⟩ := catStatsSums_ok l h []
  refine ⟨s.map (fun p =>
    (p.1, { count := p.2.count
            avgScore := round2 (p.2.avgScore / p.2.count)
            avgSubscribers := (jsRound (p.2.avgSubscribers / p.2.count) : ℚ)
            avgCpm := (jsRound (p.2.avgCpm / p.2.count) : ℚ) })), ?_⟩
  unfold calculateCategoryStats
  rw [hs, except_bind_ok]

/-- Each summary reduction succeeds on an all-success array. -/
theorem sumMetricE_ok (f : AnalysisSuccess → ℚ) : ∀ (l : List RankedEntry),
    (∀ e ∈ l, e.result.isOk = true) → ∀ (acc : ℚ),
    ∃ x, sumMetricE f acc l = Except.ok x := by
  intro l
  induction l with
  | nil => exact fun _ acc => ⟨acc, rfl⟩
  | cons e es ih =>
    intro h acc
    have he := h e (List.mem_cons_self e es)
    cases hr : e.result with
    | ok r =>
      have step : sumMetricE f acc (e :: es) = sumMetricE f (acc + f r) es := by
        simp only [sumMetricE, hr]
      rw [step]
      exact ih (fun x hx => h x (List.mem_cons_of_mem e hx)) _
    | fail err ch =>
      rw [hr] at he
      simp [AnalysisResult.isOk] at he

/-- Stability of the sort step: for any score value `v`, the entries
carrying exactly that score come out of the mergeSort in their original
relative order (they form the same sublist). -/
theorem mergeSort_filter_overall (l : List RankedEntry) (v : ℚ) :
    (l.mergeSort rankLE).filter (fun e => decide (overallOf e.result = v)) =
      l.filter (fun e => decide (overallOf e.result = v)) := by
  have hpair : (l.filter (fun e => decide (overallOf e.result = v))).Pairwise
      (fun a b => rankLE a b) := by
    apply List.pairwise_of_forall_mem_list
    intro a ha b hb
    have ha2 := (List.mem_filter.mp ha).2
    have hb2 := (List.mem_filter.mp hb).2
    simp only [decide_eq_true_eq] at ha2 hb2
    simp [rankLE, ha2, hb2]
  have hsub : List.Sublist (l.filter (fun e => decide (overallOf e.result = v)))
      (l.mergeSort rankLE) :=
    List.sublist_mergeSort rankLE_trans rankLE_total hpair (List.filter_sublist l)
  have hidem : (l.filter (fun e => decide (overallOf e.result = v))).filter
      (fun e => decide (overallOf e.result = v)) =
      l.filter (fun e => decide (overallOf e.result = v)) :=
    List.filter_eq_self.mpr (fun a ha => (List.mem_filter.mp ha).2)
  have hsub2 := hsub.filter (fun e => decide (overallOf e.result = v))
  rw [hidem] at hsub2
  have hperm : List.Perm
      ((l.mergeSort rankLE).filter (fun e => decide (overallOf e.result = v)))
      (l.filter (fun e => decide (overallOf e.result = v))) :=
    (List.mergeSort_perm l rankLE).filter _
  exact (hsub2.eq_of_length hperm.length_eq.symm).symm

/-- The comparisons array carries exactly the analysis results. -/
theorem mkComparisons_map_result (log10 : ℚ → ℚ) (inputs : List BatchItem) :
    (mkComparisons log10 inputs).map RankedEntry.result =
      inputs.map (fun c => analyzeChannel log10 c.info c.stats) := by
  rw [mkComparisons, List.map_map]
  rfl

/-- On a batch whose items all carry a non-null `info` record, every
analysis succeeds. -/
theorem mkComparisons_all_ok (log10 : ℚ → ℚ) (inputs : List BatchItem)
    (h : ∀ c ∈ inputs, c.info.isSome = true) :
    ∀ e ∈ mkComparisons log10 inputs, e.result.isOk = true := by
  intro e he
  obtain ⟨c, hc, rfl⟩ := List.mem_map.mp he
  have hi := h c hc
  cases hinfo : c.info with
  | none => rw [hinfo] at hi; simp at hi
  | some snap => rfl

/-- C7: on a batch in which every channel analysis succeeds,
`compareChannels` returns a report whose channel list is a permutation
of the analysis results, sorted descending by `qualityScore.overall`,
stable (for every score value, the entries carrying that score appear in
their original input order), and carrying the dense ranks 1..N in list
order. -/
theorem compareChannels_sorted_stable_ranked (log10 : ℚ → ℚ)
    (inputs : List BatchItem) (h : ∀ c ∈ inputs, c.info.isSome = true) :
    ∃ rep : ComparisonReport,
      compareChannels log10 inputs = Except.ok rep ∧
      List.Perm (rep.channels.map RankedEntry.result)
        (inputs.map (fun c => analyzeChannel log10 c.info c.stats)) ∧
      rep.channels.Pairwise
        (fun a b => overallOf b.result ≤ overallOf a.result) ∧
      rep.channels.map RankedEntry.rank = List.range' 1 rep.channels.length ∧
      (∀ v : ℚ,
        (rep.channels.map RankedEntry.result).filter
            (fun r => decide (overallOf r = v)) =
          (inputs.map (fun c => analyzeChannel log10 c.info c.stats)).filter
            (fun r => decide (overallOf r = v))) := by
  have hallok := mkComparisons_all_ok log10 inputs h
  have hall : (mkComparisons log10 inputs).all (fun e => e.result.isOk) = true :=
    List.all_eq_true.mpr hallok
  have hsort := sortComparisons_ok hall
  have hallok_sorted : ∀ e ∈ (mkComparisons log10 inputs).mergeSort rankLE,
      e.result.isOk = true := fun e he =>
    hallok e ((List.mergeSort_perm (mkComparisons log10 inputs) rankLE).mem_iff.mp he)
  have hmapres : (assignRanks 1 ((mkComparisons log10 inputs).mergeSort rankLE)).map
      RankedEntry.result =
      ((mkComparisons log10 inputs).mergeSort rankLE).map RankedEntry.result :=
    assignRanks_map_result 1 _
  have hallok_ranked : ∀ e ∈ assignRanks 1 ((mkComparisons log10 inputs).mergeSort rankLE),
      e.result.isOk = true := by
    intro e he
    have hm : e.result ∈ (assignRanks 1 ((mkComparisons log10 inputs).mergeSort rankLE)).map
        RankedEntry.result := List.mem_map_of_mem _ he
    rw [hmapres] at hm
    obtain ⟨e2, he2, heq⟩ := List.mem_map.mp hm
    rw [← heq]
    exact hallok_sorted e2 he2
  obtain ⟨cs, hcs⟩ := calculateCategoryStats_ok hallok_ranked
  obtain ⟨s1, hs1⟩ := sumMetricE_ok (fun r => r.qualityScore.overall) _ hallok_ranked 0
  obtain ⟨s2, hs2⟩ := sumMetricE_ok (fun r => r.metrics.subscribers) _ hallok_ranked 0
  obtain ⟨s3, hs3⟩ := sumMetricE_ok (fun r => r.metrics.reachPercentage) _ hallok_ranked 0
  refine ⟨{ channels := assignRanks 1 ((mkComparisons log10 inputs).mergeSort rankLE)
            summary := {
              total := (assignRanks 1 ((mkComparisons log10 inputs).mergeSort rankLE)).length
              avgQualityScore := round2 (s1 /
                (assignRanks 1 ((mkComparisons log10 inputs).mergeSort rankLE)).length)
              avgSubscribers := jsRound (s2 /
                (assignRanks 1 ((mkComparisons log10 inputs).mergeSort rankLE)).length)
              avgReach := round2 (s3 /
                (assignRanks 1 ((mkComparisons log10 inputs).mergeSort rankLE)).length)
              categoryStats := cs } }, ?_, ?_, ?_, ?_, ?_⟩
  · simp only [compareChannels]
    rw [hsort, except_bind_ok, hcs, except_bind_ok, hs1, except_bind_ok,
      hs2, except_bind_ok, hs3, except_bind_ok]
  · show List.Perm ((assignRanks 1 ((mkComparisons log10 inputs).mergeSort rankLE)).map
      RankedEntry.result) _
    rw [hmapres]
    have hp := (List.mergeSort_perm (mkComparisons log10 inputs) rankLE).map
      RankedEntry.result
    rw [mkComparisons_map_result] at hp
    exact hp
  · have hs := List.sorted_mergeSort rankLE_trans rankLE_total
      (mkComparisons log10 inputs)
    have hs2 : ((mkComparisons log10 inputs).mergeSort rankLE).Pairwise
        (fun a b => overallOf b.result ≤ overallOf a.result) :=
      hs.imp (fun hab => of_decide_eq_true hab)
    exact assignRanks_pairwise (fun x y => overallOf y ≤ overallOf x) 1 hs2
  · rw [assignRanks_map_rank, assignRanks_length]
  · intro v
    rw [hmapres, List.filter_map, List.filter_map]
    have hcore : ((mkComparisons log10 inputs).mergeSort rankLE).filter
        ((fun r => decide (overallOf r = v)) ∘ RankedEntry.result) =
        (mkComparisons log10 inputs).filter
        ((fun r => decide (overallOf r = v)) ∘ RankedEntry.result) := by
      have := mergeSort_filter_overall (mkComparisons log10 inputs) v
      simpa [Function.comp] using this
    rw [hcore, ← List.filter_map, mkComparisons_map_result, List.filter_map]

/-- Witness for C7 at a concrete all-success batch of three channels. -/
theorem compareChannels_sorted_stable_ranked_witness :
    ∃ rep : ComparisonReport,
      compareChannels testLog10 batchAllGood = Except.ok rep ∧
      List.Perm (rep.channels.map RankedEntry.result)
        (batchAllGood.map (fun c => analyzeChannel testLog10 c.info c.stats)) ∧
      rep.channels.Pairwise
        (fun a b => overallOf b.result ≤ overallOf a.result) ∧
      rep.channels.map RankedEntry.rank = List.range' 1 rep.channels.length ∧
      (∀ v : ℚ,
        (rep.channels.map RankedEntry.result).filter
            (fun r => decide (overallOf r = v)) =
          (batchAllGood.map (fun c => analyzeChannel testLog10 c.info c.stats)).filter
            (fun r => decide (overallOf r = v))) :=
  compareChannels_sorted_stable_ranked testLog10 batchAllGood (by decide)
